import Mathlib

/-!
Verification of the git_mcp platform adapters (GitHub / GitLab).

This file gives a shallow embedding, in Lean, of the pieces of
`git_mcp/platforms/github.py` and `git_mcp/platforms/gitlab.py` that the
specification talks about, and proves (or refutes) the spec claims about
them.  Python dictionaries are modelled as association lists over string
keys, Python exceptions as an explicit `Except` error channel, and the
network (PyGithub / python-gitlab calls) as an explicit "world" record of
call results, so every adapter method becomes a pure, executable function.
-/

/-! ## Python value model -/

/-- A (flat) Python value as it occurs in the adapters' small dictionaries:
`None`, strings, integers, booleans and lists of strings. -/
inductive PyVal where
  | noneV : PyVal
  | str (s : String) : PyVal
  | int (n : Int) : PyVal
  | bool (b : Bool) : PyVal
  | strList (l : List String) : PyVal
deriving DecidableEq, Repr

/-- Python truthiness of a value (`if v:`). -/
def PyVal.truthy : PyVal → Bool
  | .noneV => false
  | .str s => !s.data.isEmpty
  | .int n => n != 0
  | .bool b => b
  | .strList l => !l.isEmpty

/-- Python dictionaries with string keys, as ordered association lists
without duplicate keys (insertion updates in place, like `dict`). -/
def PyDict := List (String × PyVal)
deriving DecidableEq, Repr

/-- Dictionary lookup: `d.get(k)` returning `None` as `none`. -/
def PyDict.get : PyDict → String → Option PyVal
  | [], _ => none
  | (k', v) :: rest, k => if k' = k then some v else PyDict.get rest k

/-- Dictionary lookup with default: `d.get(k, dflt)`. -/
def PyDict.getD (d : PyDict) (k : String) (dflt : PyVal) : PyVal :=
  (d.get k).getD dflt

/-- Key membership: `k in d`. -/
def PyDict.contains (d : PyDict) (k : String) : Bool :=
  (d.get k).isSome

/-- Assignment `d[k] = v`: update in place if the key exists, else append. -/
def PyDict.insert : PyDict → String → PyVal → PyDict
  | [], k, v => [(k, v)]
  | (k', v') :: rest, k, v =>
      if k' = k then (k', v) :: rest else (k', v') :: PyDict.insert rest k v

/-- Key removal, as done by `d.pop(k, None)`. -/
def PyDict.erase : PyDict → String → PyDict
  | [], _ => []
  | (k', v') :: rest, k =>
      if k' = k then PyDict.erase rest k else (k', v') :: PyDict.erase rest k

/-- `d.update(other)`: assign every binding of `other` into `d` in order. -/
def PyDict.update (d other : PyDict) : PyDict :=
  other.foldl (fun acc kv => acc.insert kv.1 kv.2) d

/-! ## Exception model -/

/-- The native exception raised by PyGithub: carries an HTTP status and a
message; `BadCredentialsException` is the subclass flagged by `badCreds`. -/
structure GithubException where
  status : Int
  msg : String
  badCreds : Bool := false
deriving DecidableEq, Repr

/-- The native exception raised by python-gitlab: carries a response code
and a message; `GitlabAuthenticationError` is the subclass flagged by
`authErr`. -/
structure GitlabError where
  response_code : Int
  msg : String
  authErr : Bool := false
deriving DecidableEq, Repr

/-- A Python exception as it can cross an adapter method boundary. -/
inductive PyExc where
  | valueError (msg : String)
  | authenticationError (msg : String)
  | networkError (msg : String)
  | platformError (msg : String) (platform : String)
  | resourceNotFound (resource_type : String) (resource_id : String) (platform : String)
  | githubExc (e : GithubException)
  | gitlabExc (e : GitlabError)
  | otherExc (msg : String)
deriving DecidableEq, Repr

/-- A `try: body except GithubException as e: handler` block: only the
PyGithub native exception is routed to the handler, anything else
propagates. -/
def tryGithub (body : Except PyExc α) (handler : GithubException → Except PyExc α) :
    Except PyExc α :=
  match body with
  | .error (.githubExc e) => handler e
  | r => r

/-- A `try: body except GitlabError as e: handler` block. -/
def tryGitlab (body : Except PyExc α) (handler : GitlabError → Except PyExc α) :
    Except PyExc α :=
  match body with
  | .error (.gitlabExc e) => handler e
  | r => r

/-- A `try: body except Exception: handler` block: every exception is
routed to the handler. -/
def tryAll (body : Except PyExc α) (handler : PyExc → Except PyExc α) :
    Except PyExc α :=
  match body with
  | .error e => handler e
  | r => r

/-- Boolean success test on `Except`. -/
def exceptOk : Except ε α → Bool
  | .ok _ => true
  | .error _ => false

instance {ε α} [DecidableEq ε] [DecidableEq α] : DecidableEq (Except ε α) := fun x y =>
  match x, y with
  | .ok a, .ok b =>
      if h : a = b then isTrue (by rw [h])
      else isFalse (fun hh => by cases hh; exact h rfl)
  | .error a, .error b =>
      if h : a = b then isTrue (by rw [h])
      else isFalse (fun hh => by cases hh; exact h rfl)
  | .ok _, .error _ => isFalse (fun hh => by cases hh)
  | .error _, .ok _ => isFalse (fun hh => by cases hh)

/-! ## Branch reference parsing

`parse_branch_reference` in both adapters splits the reference on the
first colon (`branch_ref.split(":", 1)`); we model the split explicitly
on the character list of the string. -/

/-- Split a character list at the first `':'`: `some (before, after)`
when a colon occurs, `none` otherwise (so `s.split(":", 1)` has two
parts exactly when the result is `some`). -/
def splitFirstColon : List Char → Option (List Char × List Char)
  | [] => none
  | c :: cs =>
      if c = ':' then some ([], cs)
      else
        match splitFirstColon cs with
        | some (a, b) => some (c :: a, b)
        | none => none

/-- The split succeeds exactly on inputs that contain a colon. -/
theorem splitFirstColon_isSome_iff (l : List Char) :
    (splitFirstColon l).isSome = true ↔ ':' ∈ l := by
  induction l with
  | nil => simp [splitFirstColon]
  | cons c cs ih =>
    by_cases hc : c = ':'
    · subst hc; simp [splitFirstColon]
    · simp only [splitFirstColon, if_neg hc]
      cases h : splitFirstColon cs with
      | none =>
        simp [h] at ih
        simp [List.mem_cons, ih, Ne.symm hc, hc]
      | some p =>
        simp [h] at ih
        simp [List.mem_cons, ih]

/-- Result of `GitHubAdapter.parse_branch_reference`: the Python dict
`{"owner": ..., "branch": ..., "is_cross_repo": ...}` where the `owner`
key is present only for cross-repository references. -/
structure GHBranchRef where
  owner : Option String
  branch : String
  is_cross_repo : Bool
deriving DecidableEq, Repr

/-- Result of `GitLabAdapter.parse_branch_reference`: the Python dict
`{"project": ..., "branch": ..., "is_cross_project": ...}`. -/
structure GLBranchRef where
  project : Option String
  branch : String
  is_cross_project : Bool
deriving DecidableEq, Repr

/-- `GitHubAdapter.parse_branch_reference` (github.py): split on the
first colon; both parts must be non-empty, else `ValueError`; with no
colon a non-empty reference is a same-repository branch. -/
def GitHubAdapter.parse_branch_reference (branch_ref : String) :
    Except String GHBranchRef :=
  match splitFirstColon branch_ref.data with
  | some (owner, branch) =>
      if owner.isEmpty || branch.isEmpty then
        .error ("Invalid branch reference format: " ++ branch_ref)
      else
        .ok { owner := some ⟨owner⟩, branch := ⟨branch⟩, is_cross_repo := true }
  | none =>
      if branch_ref.data.isEmpty then
        .error "Branch reference cannot be empty"
      else
        .ok { owner := none, branch := branch_ref, is_cross_repo := false }

/-- `GitLabAdapter.parse_branch_reference` (gitlab.py): identical logic,
with the `project` / `is_cross_project` key names. -/
def GitLabAdapter.parse_branch_reference (branch_ref : String) :
    Except String GLBranchRef :=
  match splitFirstColon branch_ref.data with
  | some (project, branch) =>
      if project.isEmpty || branch.isEmpty then
        .error ("Invalid branch reference format: " ++ branch_ref)
      else
        .ok { project := some ⟨project⟩, branch := ⟨branch⟩, is_cross_project := true }
  | none =>
      if branch_ref.data.isEmpty then
        .error "Branch reference cannot be empty"
      else
        .ok { project := none, branch := branch_ref, is_cross_project := false }

/-- Claim C1: both adapters' `parse_branch_reference` return the
qualifier, branch and a true cross-repo flag on any input whose first
colon splits it into two non-empty parts; return just the branch with a
false cross-repo flag on any non-empty input without a colon; and raise
`ValueError` on `""`, `":branch"` and `"owner:"`. -/
theorem parse_branch_reference_spec :
    (∀ (s : String) (p b : List Char),
        splitFirstColon s.data = some (p, b) → p ≠ [] → b ≠ [] →
        GitHubAdapter.parse_branch_reference s =
          .ok { owner := some ⟨p⟩, branch := ⟨b⟩, is_cross_repo := true } ∧
        GitLabAdapter.parse_branch_reference s =
          .ok { project := some ⟨p⟩, branch := ⟨b⟩, is_cross_project := true }) ∧
    (∀ s : String, s ≠ "" → splitFirstColon s.data = none →
        GitHubAdapter.parse_branch_reference s =
          .ok { owner := none, branch := s, is_cross_repo := false } ∧
        GitLabAdapter.parse_branch_reference s =
          .ok { project := none, branch := s, is_cross_project := false }) ∧
    GitHubAdapter.parse_branch_reference "" =
      .error "Branch reference cannot be empty" ∧
    GitHubAdapter.parse_branch_reference ":branch" =
      .error "Invalid branch reference format: :branch" ∧
    GitHubAdapter.parse_branch_reference "owner:" =
      .error "Invalid branch reference format: owner:" ∧
    GitLabAdapter.parse_branch_reference "" =
      .error "Branch reference cannot be empty" ∧
    GitLabAdapter.parse_branch_reference ":branch" =
      .error "Invalid branch reference format: :branch" ∧
    GitLabAdapter.parse_branch_reference "owner:" =
      .error "Invalid branch reference format: owner:" := by
  refine ⟨?_, ?_, by decide, by decide, by decide, by decide, by decide, by decide⟩
  · intro s p b hsplit hp hb
    have hpe : p.isEmpty = false := by
      cases p with
      | nil => exact absurd rfl hp
      | cons x xs => rfl
    have hbe : b.isEmpty = false := by
      cases b with
      | nil => exact absurd rfl hb
      | cons x xs => rfl
    constructor
    · unfold GitHubAdapter.parse_branch_reference
      rw [hsplit]
      simp [hpe, hbe]
    · unfold GitLabAdapter.parse_branch_reference
      rw [hsplit]
      simp [hpe, hbe]
  · intro s hs hsplit
    have hse : s.data.isEmpty = false := by
      cases s with
      | mk data =>
        cases data with
        | nil => exact absurd rfl hs
        | cons c cs => rfl
    constructor
    · unfold GitHubAdapter.parse_branch_reference
      rw [hsplit]
      simp [hse]
    · unfold GitLabAdapter.parse_branch_reference
      rw [hsplit]
      simp [hse]

/-- Witness for C1 at concrete inputs `"owner:branch"` and `"branch"`. -/
theorem parse_branch_reference_spec_witness :
    GitHubAdapter.parse_branch_reference "owner:branch" =
      .ok { owner := some "owner", branch := "branch", is_cross_repo := true } ∧
    GitLabAdapter.parse_branch_reference "branch" =
      .ok { project := none, branch := "branch", is_cross_project := false } :=
  ⟨(parse_branch_reference_spec.1 "owner:branch" "owner".data "branch".data
      (by decide) (by decide) (by decide)).1,
   (parse_branch_reference_spec.2.1 "branch" (by decide) (by decide)).2⟩

/-! ## Issue filter normalization -/

/-- Lookup in a plain string-to-string association list (the local
`filter_mapping` dicts). -/
def assocLookup : List (String × String) → String → Option String
  | [], _ => none
  | (k', v) :: rest, k => if k' = k then some v else assocLookup rest k

/-- `GitHubAdapter._normalize_issue_filters` (github.py): keep only mapped
keys; rewrite generic state `"opened"` to GitHub native `"open"`; wrap a
bare string label into a singleton list; copy everything else through. -/
def GitHubAdapter._normalize_issue_filters (filters : PyDict) : PyDict :=
  let filter_mapping : List (String × String) :=
    [("state", "state"), ("labels", "labels"), ("assignee", "assignee"),
     ("creator", "creator"), ("mentioned", "mentioned"), ("milestone", "milestone"),
     ("sort", "sort"), ("direction", "direction")]
  filters.foldl
    (fun github_filters kv =>
      match assocLookup filter_mapping kv.1 with
      | none => github_filters
      | some mapped =>
          if kv.1 = "state" ∧ kv.2 = PyVal.str "opened" then
            github_filters.insert "state" (PyVal.str "open")
          else if kv.1 = "labels" then
            match kv.2 with
            | PyVal.str s => github_filters.insert "labels" (PyVal.strList [s])
            | v => github_filters.insert "labels" v
          else
            github_filters.insert mapped kv.2)
    []

/-- `GitLabAdapter._normalize_issue_filters` (gitlab.py): rename mapped
keys (`assignee` to `assignee_username`, `author` to `author_username`)
and copy the values through unchanged. -/
def GitLabAdapter._normalize_issue_filters (filters : PyDict) : PyDict :=
  let filter_mapping : List (String × String) :=
    [("state", "state"), ("labels", "labels"), ("assignee", "assignee_username"),
     ("author", "author_username"), ("milestone", "milestone"),
     ("order_by", "order_by"), ("sort", "sort")]
  filters.foldl
    (fun gitlab_filters kv =>
      match assocLookup filter_mapping kv.1 with
      | none => gitlab_filters
      | some mapped => gitlab_filters.insert mapped kv.2)
    []

/-- Counterexample to claim C4: the generic filter `{"state": "all"}` is
not dropped by either normalizer — both adapters keep a `state` key with
the literal value `"all"`. -/
theorem normalize_issue_filters_all_counterexample :
    (GitHubAdapter._normalize_issue_filters [("state", PyVal.str "all")]).get "state" =
      some (PyVal.str "all") ∧
    (GitLabAdapter._normalize_issue_filters [("state", PyVal.str "all")]).get "state" =
      some (PyVal.str "all") := by
  constructor <;> rfl

/-- Claim C4, amended: `{"state": "opened"}` normalizes to GitHub native
`{"state": "open"}` and is kept verbatim by GitLab; `{"state": "all"}` is
passed through as a literal native `state = "all"` parameter by both
issue-filter normalizers (the state parameter is only omitted for
`"all"` in GitHub's global-search query builder, not here). -/
theorem normalize_issue_filters_state_mapping :
    GitHubAdapter._normalize_issue_filters [("state", PyVal.str "opened")] =
      [("state", PyVal.str "open")] ∧
    GitLabAdapter._normalize_issue_filters [("state", PyVal.str "opened")] =
      [("state", PyVal.str "opened")] ∧
    GitHubAdapter._normalize_issue_filters [("state", PyVal.str "all")] =
      [("state", PyVal.str "all")] ∧
    GitLabAdapter._normalize_issue_filters [("state", PyVal.str "all")] =
      [("state", PyVal.str "all")] := by
  refine ⟨rfl, rfl, rfl, rfl⟩

/-! ## GitLab per-file change status -/

/-- `GitLabAdapter._get_file_status` (gitlab.py): derive a status string
from the boolean `new_file` / `deleted_file` / `renamed_file` flags of a
GitLab change object. -/
def GitLabAdapter._get_file_status (change : PyDict) : String :=
  let new_file := (change.getD "new_file" (PyVal.bool false)).truthy
  let deleted_file := (change.getD "deleted_file" (PyVal.bool false)).truthy
  let renamed_file := (change.getD "renamed_file" (PyVal.bool false)).truthy
  if new_file then "added"
  else if deleted_file then "deleted"
  else if renamed_file then "renamed"
  else "modified"

/-- Counterexample to claim C9: a change with `deleted_file = True` maps
to the status `"deleted"`, not to GitHub's `"removed"`. -/
theorem get_file_status_deleted_counterexample :
    GitLabAdapter._get_file_status [("deleted_file", PyVal.bool true)] ≠ "removed" ∧
    GitLabAdapter._get_file_status [("deleted_file", PyVal.bool true)] = "deleted" := by
  constructor
  · decide
  · rfl

/-- Claim C9, amended: every GitLab change maps into the four-way status
set `added | deleted | renamed | modified` (GitLab's status for a
deletion is spelled `"deleted"`, unlike GitHub's native `"removed"`):
`new_file` wins, then `deleted_file`, then `renamed_file`, else the file
is `"modified"`. -/
theorem get_file_status_amended :
    ∀ change : PyDict,
      GitLabAdapter._get_file_status change ∈
        (["added", "deleted", "renamed", "modified"] : List String) ∧
      ((change.getD "new_file" (PyVal.bool false)).truthy = true →
        GitLabAdapter._get_file_status change = "added") ∧
      ((change.getD "new_file" (PyVal.bool false)).truthy = false →
       (change.getD "deleted_file" (PyVal.bool false)).truthy = true →
        GitLabAdapter._get_file_status change = "deleted") ∧
      ((change.getD "new_file" (PyVal.bool false)).truthy = false →
       (change.getD "deleted_file" (PyVal.bool false)).truthy = false →
       (change.getD "renamed_file" (PyVal.bool false)).truthy = true →
        GitLabAdapter._get_file_status change = "renamed") ∧
      ((change.getD "new_file" (PyVal.bool false)).truthy = false →
       (change.getD "deleted_file" (PyVal.bool false)).truthy = false →
       (change.getD "renamed_file" (PyVal.bool false)).truthy = false →
        GitLabAdapter._get_file_status change = "modified") := by
  intro change
  cases hn : (change.getD "new_file" (PyVal.bool false)).truthy <;>
    cases hd : (change.getD "deleted_file" (PyVal.bool false)).truthy <;>
      cases hr : (change.getD "renamed_file" (PyVal.bool false)).truthy <;>
        simp [GitLabAdapter._get_file_status, hn, hd, hr]

/-- Witness for the amended C9 at a concrete renamed-file change. -/
theorem get_file_status_amended_witness :
    GitLabAdapter._get_file_status [("renamed_file", PyVal.bool true)] = "renamed" :=
  (get_file_status_amended [("renamed_file", PyVal.bool true)]).2.2.2.1 rfl rfl rfl

/-! ## GitHub pull request state normalization -/

/-- The normalized resource states of `platforms/base.py`. -/
inductive ResourceState where
  | opened
  | closed
  | merged
  | draft
  | active
deriving DecidableEq, Repr

/-- The fields of a PyGithub pull request object that
`_convert_to_mr_resource` reads. -/
structure GHPull where
  number : Int
  state : String
  merged : Bool
  title : String
  body : Option String
  head_ref : String
  base_ref : String
  html_url : String
  draft : Bool
deriving DecidableEq, Repr

/-- The normalized merge request resource (the fields of
`MergeRequestResource` in `platforms/base.py` that the claims mention). -/
structure MergeRequestResource where
  id : String
  title : String
  platform : String
  url : String
  state : ResourceState
  project_id : String
  source_branch : String
  target_branch : String
  description : Option String
  draft : Bool
deriving DecidableEq, Repr

/-- `GitHubAdapter._convert_to_mr_resource` (github.py): the state starts
`OPENED`, becomes `CLOSED` when the native state is `"closed"`, and
`MERGED` only otherwise when the `merged` flag is set. -/
def GitHubAdapter._convert_to_mr_resource (pr : GHPull) (project_id : String) :
    MergeRequestResource :=
  let state :=
    if pr.state = "closed" then ResourceState.closed
    else if pr.merged then ResourceState.merged
    else ResourceState.opened
  { id := toString pr.number
    title := pr.title
    platform := "github"
    url := pr.html_url
    state := state
    project_id := project_id
    source_branch := pr.head_ref
    target_branch := pr.base_ref
    description := pr.body
    draft := pr.draft }

/-- Claim C10: a native state `"closed"` always normalizes to `closed`,
whatever the `merged` flag says, and `merged` is produced exactly when
the native state is not `"closed"` and the `merged` flag is true. -/
theorem convert_to_mr_resource_state_spec :
    ∀ (pr : GHPull) (project_id : String),
      (pr.state = "closed" →
        (GitHubAdapter._convert_to_mr_resource pr project_id).state = ResourceState.closed) ∧
      ((GitHubAdapter._convert_to_mr_resource pr project_id).state = ResourceState.merged ↔
        (pr.state ≠ "closed" ∧ pr.merged = true)) := by
  intro pr project_id
  by_cases hs : pr.state = "closed" <;>
    cases hm : pr.merged <;>
      simp [GitHubAdapter._convert_to_mr_resource, hs, hm]

/-- Witness for C10: a pull request that is both `"closed"` and `merged`
normalizes to `closed`. -/
theorem convert_to_mr_resource_state_spec_witness :
    (GitHubAdapter._convert_to_mr_resource
      { number := 7, state := "closed", merged := true, title := "t",
        body := none, head_ref := "f", base_ref := "main",
        html_url := "u", draft := false } "owner/repo").state = ResourceState.closed :=
  (convert_to_mr_resource_state_spec
    { number := 7, state := "closed", merged := true, title := "t",
      body := none, head_ref := "f", base_ref := "main",
      html_url := "u", draft := false } "owner/repo").1 rfl

/-! ## Adapter state, native objects and the world of call results

Each adapter instance carries a token and a lazily created client handle.
The network is modelled as a record of results for each native call the
adapters make; the Python objects returned by PyGithub / python-gitlab
are modelled by structures holding the fields the adapters read. -/

/-- A PyGithub / python-gitlab client handle, created from the token. -/
structure GHClient where
  token : String
deriving DecidableEq, Repr

/-- A python-gitlab client handle. -/
structure GLClient where
  token : String
deriving DecidableEq, Repr

/-- Mutable state of a `GitHubAdapter` instance. -/
structure GHState where
  token : Option String
  username : Option String
  client : Option GHClient
  authenticated : Bool
deriving DecidableEq, Repr

/-- Mutable state of a `GitLabAdapter` instance. -/
structure GLState where
  token : Option String
  username : Option String
  client : Option GLClient
  authenticated : Bool
deriving DecidableEq, Repr

/-- Fields of a PyGithub repository object read by the adapter. -/
structure GHRepo where
  full_name : String
  name : String
  owner_login : String
  html_url : String
  is_private : Bool
  description : Option String
deriving DecidableEq, Repr

/-- Fields of a PyGithub issue object read by the adapter. -/
structure GHIssue where
  number : Int
  state : String
  title : String
  body : Option String
  html_url : String
  assignee : Option String
  labels : List String
deriving DecidableEq, Repr

/-- Fields of a PyGithub issue comment read by the adapter. -/
structure GHComment where
  cid : Int
  author : Option String
  body : String
deriving DecidableEq, Repr

/-- Fields of a PyGithub pull request file entry read by
`get_merge_request_diff`. -/
structure GHFile where
  filename : String
  status : String
  additions : Int
  deletions : Int
  patch : Option String
deriving DecidableEq, Repr

/-- Fields of a PyGithub commit read by `get_merge_request_commits`. -/
structure GHCommit where
  sha : String
  message : String
  author : Option String
deriving DecidableEq, Repr

/-- Extra pull request attributes used by `get_merge_request_diff`. -/
structure GHPullStats where
  pr : GHPull
  additions : Int
  deletions : Int
deriving DecidableEq, Repr

/-- The outcomes of the native PyGithub calls a scenario can make.
`branches_list` records the true branch listings of the world; the
GitHub adapter never queries it (the code has no branch existence
check), which is exactly what claim C6 is about. -/
structure GHWorld where
  get_user : Except PyExc Unit
  get_repo : String → Except PyExc GHRepo
  delete_repo : String → Except PyExc Unit
  get_pull : String → Int → Except PyExc GHPullStats
  get_issue : String → Int → Except PyExc GHIssue
  issue_comments : String → Int → Except PyExc (List GHComment)
  pull_files : String → Int → Except PyExc (List GHFile)
  pull_commits : String → Int → Except PyExc (List GHCommit)
  create_pull : String → PyDict → Except PyExc GHPull
  branches_list : String → String → Except PyExc (List String)

/-- Fields of a python-gitlab project object read by the adapter. -/
structure GLProject where
  pid : String
  name : String := ""
  web_url : String := ""
  path_with_namespace : String := ""
  visibility : String := "private"
deriving DecidableEq, Repr

/-- Fields of a python-gitlab issue note read by the adapter. -/
structure GLNote where
  nid : Int
  author : Option String
  body : String
  system : Bool
deriving DecidableEq, Repr

/-- Fields of a python-gitlab issue object read by the adapter. -/
structure GLIssue where
  iid : Int
  project_id : Int
  state : String
  title : String
  web_url : String
  assignee : Option String
  labels : List String
deriving DecidableEq, Repr

/-- Fields of a python-gitlab user object read by the adapter. -/
structure GLUser where
  uid : Int
  username : String
deriving DecidableEq, Repr

/-- Fields of a python-gitlab merge request object read by the adapter. -/
structure GLMergeRequest where
  iid : Int
  state : String
  title : String
  web_url : String
  source_branch : String
  target_branch : String
  description : Option String
  draft : Bool
  changes_count : Option Int
deriving DecidableEq, Repr

/-- Fields of a python-gitlab commit read by
`get_merge_request_commits`. -/
structure GLCommit where
  cid : String
  message : String
  author_name : String
  committer_name : String
deriving DecidableEq, Repr

/-- The outcomes of the native python-gitlab calls a scenario can make. -/
structure GLWorld where
  auth : Except PyExc Unit
  user : Except PyExc Unit
  projects_get : String → Except PyExc GLProject
  project_delete : String → Except PyExc Unit
  issues_get : String → String → Except PyExc GLIssue
  issue_notes : String → String → Except PyExc (List GLNote)
  mr_get : String → String → Except PyExc GLMergeRequest
  mr_changes : String → String → Except PyExc (List PyDict)
  mr_commits : String → String → Except PyExc (List GLCommit)
  mr_create : String → PyDict → Except PyExc GLMergeRequest
  branches_list : String → String → Except PyExc (List String)
  users_list : String → Except PyExc (List GLUser)
  issues_list : PyDict → Except PyExc (List GLIssue)

/-! ## Authentication and `test_connection` -/

/-- `GitHubAdapter.authenticate` (github.py): no token raises
`AuthenticationError`; otherwise the client is created and probed with
`get_user()`, converting `BadCredentialsException` to
`AuthenticationError` and any other exception to `NetworkError`. -/
def GitHubAdapter.authenticate (w : GHWorld) (s : GHState) : Except PyExc GHState :=
  match s.token with
  | none => .error (.authenticationError "GitHub token is required")
  | some tok =>
      let client : GHClient := ⟨tok⟩
      match w.get_user with
      | .ok _ => .ok { s with client := some client, authenticated := true }
      | .error (.githubExc e) =>
          if e.badCreds then
            .error (.authenticationError ("GitHub authentication failed: " ++ e.msg))
          else
            .error (.networkError ("Failed to connect to GitHub: " ++ e.msg))
      | .error _ => .error (.networkError "Failed to connect to GitHub")

/-- The `try` body of `GitHubAdapter.test_connection`: probe
`self.client.get_user()` and swallow any exception into `False` (an
absent client would raise `AttributeError`, equally swallowed). -/
def GitHubAdapter.test_connection_try (w : GHWorld) (s : GHState) :
    Except PyExc (GHState × Bool) :=
  match s.client with
  | some _ =>
      match w.get_user with
      | .ok _ => .ok (s, true)
      | .error _ => .ok (s, false)
  | none => .ok (s, false)

/-- `GitHubAdapter.test_connection` (github.py): authenticate first when
no client handle exists — outside the `try` block, so `authenticate`
failures propagate — then probe the connection. -/
def GitHubAdapter.test_connection (w : GHWorld) (s : GHState) :
    Except PyExc (GHState × Bool) :=
  match s.client with
  | none =>
      match GitHubAdapter.authenticate w s with
      | .error e => .error e
      | .ok s' => GitHubAdapter.test_connection_try w s'
  | some _ => GitHubAdapter.test_connection_try w s

/-- `GitLabAdapter.authenticate` (gitlab.py): no token raises
`AuthenticationError`; otherwise the client is created and `auth()` is
called, converting `GitlabAuthenticationError` to `AuthenticationError`
and any other exception to `NetworkError`. -/
def GitLabAdapter.authenticate (w : GLWorld) (s : GLState) : Except PyExc GLState :=
  match s.token with
  | none => .error (.authenticationError "GitLab token is required")
  | some tok =>
      let client : GLClient := ⟨tok⟩
      match w.auth with
      | .ok _ => .ok { s with client := some client, authenticated := true }
      | .error (.gitlabExc e) =>
          if e.authErr then
            .error (.authenticationError ("GitLab authentication failed: " ++ e.msg))
          else
            .error (.networkError ("Failed to connect to GitLab: " ++ e.msg))
      | .error _ => .error (.networkError "Failed to connect to GitLab")

/-- The `try` body of `GitLabAdapter.test_connection`: read
`self.client.user` and swallow any exception into `False`. -/
def GitLabAdapter.test_connection_try (w : GLWorld) (s : GLState) :
    Except PyExc (GLState × Bool) :=
  match s.client with
  | some _ =>
      match w.user with
      | .ok _ => .ok (s, true)
      | .error _ => .ok (s, false)
  | none => .ok (s, false)

/-- `GitLabAdapter.test_connection` (gitlab.py): authenticate first when
no client handle exists — outside the `try` block — then probe. -/
def GitLabAdapter.test_connection (w : GLWorld) (s : GLState) :
    Except PyExc (GLState × Bool) :=
  match s.client with
  | none =>
      match GitLabAdapter.authenticate w s with
      | .error e => .error e
      | .ok s' => GitLabAdapter.test_connection_try w s'
  | some _ => GitLabAdapter.test_connection_try w s

/-- A freshly constructed `GitHubAdapter` with no token. -/
def ghFresh : GHState :=
  { token := none, username := none, client := none, authenticated := false }

/-- A freshly constructed `GitLabAdapter` with no token. -/
def glFresh : GLState :=
  { token := none, username := none, client := none, authenticated := false }

/-- A GitHub world in which every native call succeeds. -/
def ghWorldOk : GHWorld where
  get_user := .ok ()
  get_repo := fun pid =>
    .ok { full_name := pid, name := pid, owner_login := "o", html_url := "u",
          is_private := false, description := none }
  delete_repo := fun _ => .ok ()
  get_pull := fun _ n =>
    .ok { pr := { number := n, state := "open", merged := false, title := "t",
                  body := none, head_ref := "h", base_ref := "b",
                  html_url := "u", draft := false },
          additions := 0, deletions := 0 }
  get_issue := fun _ n =>
    .ok { number := n, state := "open", title := "t", body := none,
          html_url := "u", assignee := none, labels := [] }
  issue_comments := fun _ _ => .ok []
  pull_files := fun _ _ => .ok []
  pull_commits := fun _ _ => .ok []
  create_pull := fun _ _ =>
    .ok { number := 1, state := "open", merged := false, title := "t",
          body := none, head_ref := "h", base_ref := "b",
          html_url := "u", draft := false }
  branches_list := fun _ _ => .ok []

/-- A GitLab world in which every native call succeeds. -/
def glWorldOk : GLWorld where
  auth := .ok ()
  user := .ok ()
  projects_get := fun pid => .ok { pid := pid }
  project_delete := fun _ => .ok ()
  issues_get := fun _ _ =>
    .ok { iid := 1, project_id := 1, state := "opened", title := "t",
          web_url := "u", assignee := none, labels := [] }
  issue_notes := fun _ _ => .ok []
  mr_get := fun _ _ =>
    .ok { iid := 1, state := "opened", title := "t", web_url := "u",
          source_branch := "s", target_branch := "t", description := none,
          draft := false, changes_count := none }
  mr_changes := fun _ _ => .ok []
  mr_commits := fun _ _ => .ok []
  mr_create := fun _ _ =>
    .ok { iid := 1, state := "opened", title := "t", web_url := "u",
          source_branch := "s", target_branch := "t", description := none,
          draft := false, changes_count := none }
  branches_list := fun _ _ => .ok []
  users_list := fun _ => .ok []
  issues_list := fun _ => .ok []

/-- Counterexample to claim C2: on a freshly constructed adapter with no
token and no client handle, `test_connection` raises
`AuthenticationError` out of the `authenticate` call it makes before its
`try` block — on both adapters — even in a world where every native call
would succeed. -/
theorem test_connection_fresh_raises :
    GitHubAdapter.test_connection ghWorldOk ghFresh =
      .error (.authenticationError "GitHub token is required") ∧
    GitLabAdapter.test_connection glWorldOk glFresh =
      .error (.authenticationError "GitLab token is required") :=
  ⟨rfl, rfl⟩

/-- Claim C2, amended: once a client handle exists, `test_connection`
never raises and returns exactly whether the cheap authenticated call
succeeds; but on an instance without a client handle it first runs
`authenticate` outside its `try` block, so authentication failures
propagate — in particular a fresh tokenless instance raises
`AuthenticationError`. -/
theorem test_connection_amended :
    (∀ (w : GHWorld) (s : GHState) (c : GHClient), s.client = some c →
        GitHubAdapter.test_connection w s = .ok (s, exceptOk w.get_user)) ∧
    (∀ (w : GLWorld) (s : GLState) (c : GLClient), s.client = some c →
        GitLabAdapter.test_connection w s = .ok (s, exceptOk w.user)) ∧
    (∀ (w : GHWorld) (s : GHState), s.client = none → s.token = none →
        GitHubAdapter.test_connection w s =
          .error (.authenticationError "GitHub token is required")) ∧
    (∀ (w : GLWorld) (s : GLState), s.client = none → s.token = none →
        GitLabAdapter.test_connection w s =
          .error (.authenticationError "GitLab token is required")) := by
  refine ⟨?_, ?_, ?_, ?_⟩
  · intro w s c hc
    unfold GitHubAdapter.test_connection GitHubAdapter.test_connection_try
    rw [hc]
    cases w.get_user <;> simp [exceptOk]
  · intro w s c hc
    unfold GitLabAdapter.test_connection GitLabAdapter.test_connection_try
    rw [hc]
    cases w.user <;> simp [exceptOk]
  · intro w s hc ht
    unfold GitHubAdapter.test_connection GitHubAdapter.authenticate
    rw [hc, ht]
  · intro w s hc ht
    unfold GitLabAdapter.test_connection GitLabAdapter.authenticate
    rw [hc, ht]

/-- Witness for the amended C2 on adapters that do have a client handle,
in a world where the cheap call succeeds (GitHub) and one where it fails
(GitLab would report `false`, not raise). -/
theorem test_connection_amended_witness :
    GitHubAdapter.test_connection ghWorldOk
      { token := some "tk", username := none, client := some ⟨"tk"⟩,
        authenticated := true } =
      .ok ({ token := some "tk", username := none, client := some ⟨"tk"⟩,
             authenticated := true }, true) ∧
    GitLabAdapter.test_connection
      { glWorldOk with user := .error (.gitlabExc ⟨500, "boom", false⟩) }
      { token := some "tk", username := none, client := some ⟨"tk"⟩,
        authenticated := true } =
      .ok ({ token := some "tk", username := none, client := some ⟨"tk"⟩,
             authenticated := true }, false) :=
  ⟨test_connection_amended.1 ghWorldOk _ ⟨"tk"⟩ rfl,
   test_connection_amended.2.1 _ _ ⟨"tk"⟩ rfl⟩

/-! ## Resource conversion helpers -/

/-- The normalized project resource (fields the claims touch; the
`namespace` attribute is spelled `nspace` because `namespace` is a Lean
keyword). -/
structure ProjectResource where
  id : String
  title : String
  platform : String
  url : String
  nspace : String
  visibility : String
  description : Option String
deriving DecidableEq, Repr

/-- The normalized issue resource (fields the claims touch; the
`metadata["comments"]` attachment of `get_issue` is kept in
`comments`). -/
structure IssueResource where
  id : String
  title : String
  platform : String
  url : String
  state : ResourceState
  project_id : String
  assignee : Option String
  labels : List String
  comments : Option (List PyDict)
deriving DecidableEq, Repr

/-- `GitHubAdapter._convert_to_project_resource` (github.py). -/
def GitHubAdapter._convert_to_project_resource (repo : GHRepo) : ProjectResource :=
  { id := repo.full_name
    title := repo.name
    platform := "github"
    url := repo.html_url
    nspace := repo.owner_login
    visibility := if repo.is_private then "private" else "public"
    description := repo.description }

/-- `GitLabAdapter._convert_to_project_resource` (gitlab.py). -/
def GitLabAdapter._convert_to_project_resource (project : GLProject) : ProjectResource :=
  { id := project.pid
    title := project.name
    platform := "gitlab"
    url := project.web_url
    nspace := project.path_with_namespace
    visibility := project.visibility
    description := none }

/-- `GitHubAdapter._convert_to_issue_resource` (github.py): GitHub's
native issue state `"open"` maps to `OPENED`, anything else to
`CLOSED`. -/
def GitHubAdapter._convert_to_issue_resource (issue : GHIssue) (project_id : String) :
    IssueResource :=
  { id := toString issue.number
    title := issue.title
    platform := "github"
    url := issue.html_url
    state := if issue.state = "open" then ResourceState.opened else ResourceState.closed
    project_id := project_id
    assignee := issue.assignee
    labels := issue.labels
    comments := none }

/-- `GitLabAdapter._convert_to_issue_resource` (gitlab.py): GitLab's
native issue state `"opened"` maps to `OPENED`, anything else to
`CLOSED`. -/
def GitLabAdapter._convert_to_issue_resource (issue : GLIssue) (project_id : String) :
    IssueResource :=
  { id := toString issue.iid
    title := issue.title
    platform := "gitlab"
    url := issue.web_url
    state := if issue.state = "opened" then ResourceState.opened else ResourceState.closed
    project_id := project_id
    assignee := issue.assignee
    labels := issue.labels
    comments := none }

/-- `GitLabAdapter._convert_to_mr_resource` (gitlab.py): native state
`"closed"` maps to `CLOSED`, `"merged"` to `MERGED`, else `OPENED`. -/
def GitLabAdapter._convert_to_mr_resource (mr : GLMergeRequest) (project_id : String) :
    MergeRequestResource :=
  let state :=
    if mr.state = "closed" then ResourceState.closed
    else if mr.state = "merged" then ResourceState.merged
    else ResourceState.opened
  { id := toString mr.iid
    title := mr.title
    platform := "gitlab"
    url := mr.web_url
    state := state
    project_id := project_id
    source_branch := mr.source_branch
    target_branch := mr.target_branch
    description := mr.description
    draft := mr.draft }

/-- Parse a non-empty run of decimal digits (helper for `pyIntOf`). -/
def parseDigitsAux : List Char → Nat → Option Nat
  | [], acc => some acc
  | c :: cs, acc =>
      if c.isDigit then parseDigitsAux cs (acc * 10 + (c.toNat - 48)) else none

/-- Python `int(s)` on a string id, raising `ValueError` when the string
is not numeric. -/
def pyIntOf (s : String) : Except PyExc Int :=
  let fail : Except PyExc Int :=
    .error (.valueError ("invalid literal for int() with base 10: " ++ s))
  match s.data with
  | [] => fail
  | '-' :: rest =>
      match rest, parseDigitsAux rest 0 with
      | [], _ => fail
      | _, some n => .ok (-(n : Int))
      | _, none => fail
  | l =>
      match parseDigitsAux l 0 with
      | some n => .ok (Int.ofNat n)
      | none => fail

/-- Python `s.endswith(post)`, by structural recursion so that concrete
scenarios evaluate inside the kernel. -/
def strEndsWith (s post : String) : Bool :=
  List.isPrefixOf post.data.reverse s.data.reverse

/-- Python `s.startswith(pre)`, by structural recursion. -/
def strStartsWith (s : String) (the_start : String) : Bool :=
  List.isPrefixOf the_start.data s.data

/-- The `if not self.client: await self.authenticate()` prelude of every
GitHub adapter method: failures of `authenticate` propagate. -/
def GHState.ensureClient (s : GHState) (w : GHWorld)
    (body : GHState → Except PyExc α) : Except PyExc α :=
  match s.client with
  | some _ => body s
  | none =>
      match GitHubAdapter.authenticate w s with
      | .error e => .error e
      | .ok s' => body s'

/-- The same prelude for the GitLab adapter methods. -/
def GLState.ensureClient (s : GLState) (w : GLWorld)
    (body : GLState → Except PyExc α) : Except PyExc α :=
  match s.client with
  | some _ => body s
  | none =>
      match GitLabAdapter.authenticate w s with
      | .error e => .error e
      | .ok s' => body s'

/-! ## Not-found semantics: the `get_*` family and `delete_project` -/

/-- `GitHubAdapter.get_project` (github.py): a native 404 becomes
`None`, any other `GithubException` becomes `PlatformError`. -/
def GitHubAdapter.get_project (w : GHWorld) (s : GHState) (project_id : String) :
    Except PyExc (Option ProjectResource) :=
  s.ensureClient w fun _ =>
    tryGithub
      (do
        let repo ← w.get_repo project_id
        pure (some (GitHubAdapter._convert_to_project_resource repo)))
      (fun e =>
        if e.status = 404 then .ok none
        else .error (.platformError
          ("Failed to get repository " ++ project_id ++ ": " ++ e.msg) "github"))

/-- `GitHubAdapter.get_issue` (github.py): fetch the issue, then try to
attach its comments, swallowing any comment-fetch failure; a native 404
becomes `None`. -/
def GitHubAdapter.get_issue (w : GHWorld) (s : GHState)
    (project_id issue_id : String) : Except PyExc (Option IssueResource) :=
  s.ensureClient w fun _ =>
    tryGithub
      (do
        let _repo ← w.get_repo project_id
        let n ← pyIntOf issue_id
        let issue ← w.get_issue project_id n
        tryAll
          (do
            let comments ← w.issue_comments project_id n
            let user_comments := comments.map (fun comment =>
              ([("id", PyVal.str (toString comment.cid)),
                ("author", PyVal.str (comment.author.getD "Unknown")),
                ("body", PyVal.str comment.body),
                ("system", PyVal.bool false)] : PyDict))
            let issue_resource := GitHubAdapter._convert_to_issue_resource issue project_id
            pure (some { issue_resource with comments := some user_comments }))
          (fun _ =>
            pure (some (GitHubAdapter._convert_to_issue_resource issue project_id))))
      (fun e =>
        if e.status = 404 then .ok none
        else .error (.platformError
          ("Failed to get issue " ++ issue_id ++ ": " ++ e.msg) "github"))

/-- `GitHubAdapter.get_merge_request` (github.py): a native 404 becomes
`None`. -/
def GitHubAdapter.get_merge_request (w : GHWorld) (s : GHState)
    (project_id mr_id : String) : Except PyExc (Option MergeRequestResource) :=
  s.ensureClient w fun _ =>
    tryGithub
      (do
        let _repo ← w.get_repo project_id
        let n ← pyIntOf mr_id
        let ps ← w.get_pull project_id n
        pure (some (GitHubAdapter._convert_to_mr_resource ps.pr project_id)))
      (fun e =>
        if e.status = 404 then .ok none
        else .error (.platformError
          ("Failed to get pull request " ++ mr_id ++ ": " ++ e.msg) "github"))

/-- `GitHubAdapter.delete_project` (github.py): a native 404 raises
`ResourceNotFoundError` — deletion never silently no-ops. -/
def GitHubAdapter.delete_project (w : GHWorld) (s : GHState) (project_id : String) :
    Except PyExc Bool :=
  s.ensureClient w fun _ =>
    tryGithub
      (do
        let _repo ← w.get_repo project_id
        let _ ← w.delete_repo project_id
        pure true)
      (fun e =>
        if e.status = 404 then
          .error (.resourceNotFound "repository" project_id "github")
        else .error (.platformError
          ("Failed to delete repository " ++ project_id ++ ": " ++ e.msg) "github"))

/-! ## Merge request diff and commits -/

/-- The unified diff response shape
`{mr_id, total_changes, files, diff_format, truncated}`; file entries
are kept as the Python dicts the adapters build. -/
structure DiffResponse where
  mr_id : String
  additions : Int
  deletions : Int
  files_changed : Int
  files : List PyDict
  diff_format : PyVal
  truncated : Bool
deriving DecidableEq, Repr

/-- The unified commits response shape `{mr_id, total_commits, commits}`. -/
structure CommitsResponse where
  mr_id : String
  total_commits : Int
  commits : List PyDict
deriving DecidableEq, Repr

/-- The file extensions GitHub's diff code treats as binary. -/
def ghBinaryExts : List String :=
  [".png", ".jpg", ".jpeg", ".gif", ".pdf", ".zip", ".exe"]

/-- Truthiness of `hasattr(file, "patch") and file.patch`. -/
def patchTruthy : Option String → Bool
  | some p => !p.isEmpty
  | none => false

/-- Python `a or b` value selection. -/
def pyOr (a b : PyVal) : PyVal :=
  if a.truthy then a else b

/-- `GitHubAdapter.get_merge_request_diff` (github.py): per-file entries
with extension-based binary detection; the `diff` key is set only when
`include_diff` holds, the file is not binary, and a non-empty patch is
present; a native 404 raises `ResourceNotFoundError`. -/
def GitHubAdapter.get_merge_request_diff (w : GHWorld) (s : GHState)
    (project_id mr_id : String) (options : PyDict) : Except PyExc DiffResponse :=
  s.ensureClient w fun _ =>
    tryGithub
      (do
        let _repo ← w.get_repo project_id
        let n ← pyIntOf mr_id
        let ps ← w.get_pull project_id n
        let diff_format := options.getD "format" (PyVal.str "json")
        let include_diff := options.getD "include_diff" (PyVal.bool true)
        let files ← w.pull_files project_id n
        let fileInfos := files.map (fun file =>
          let binary := ghBinaryExts.any (fun e => strEndsWith file.filename e)
          let file_info : PyDict :=
            [("path", PyVal.str file.filename),
             ("status", PyVal.str file.status),
             ("additions", PyVal.int file.additions),
             ("deletions", PyVal.int file.deletions),
             ("binary", PyVal.bool binary)]
          if include_diff.truthy && !binary && patchTruthy file.patch then
            file_info.insert "diff" (PyVal.str (file.patch.getD ""))
          else
            file_info)
        pure { mr_id := mr_id, additions := ps.additions, deletions := ps.deletions,
               files_changed := Int.ofNat files.length, files := fileInfos,
               diff_format := diff_format, truncated := false })
      (fun e =>
        if e.status = 404 then
          .error (.resourceNotFound "pull_request" mr_id "github")
        else .error (.platformError
          ("Failed to get pull request diff " ++ mr_id ++ ": " ++ e.msg) "github"))

/-- `GitHubAdapter.get_merge_request_commits` (github.py): a native 404
raises `ResourceNotFoundError`. -/
def GitHubAdapter.get_merge_request_commits (w : GHWorld) (s : GHState)
    (project_id mr_id : String) : Except PyExc CommitsResponse :=
  s.ensureClient w fun _ =>
    tryGithub
      (do
        let _repo ← w.get_repo project_id
        let n ← pyIntOf mr_id
        let _ps ← w.get_pull project_id n
        let commits ← w.pull_commits project_id n
        let commitInfos := commits.map (fun commit =>
          ([("sha", PyVal.str commit.sha),
            ("message", PyVal.str commit.message),
            ("author", PyVal.str (commit.author.getD ""))] : PyDict))
        pure { mr_id := mr_id, total_commits := Int.ofNat commits.length,
               commits := commitInfos })
      (fun e =>
        if e.status = 404 then
          .error (.resourceNotFound "pull_request" mr_id "github")
        else .error (.platformError
          ("Failed to get pull request commits " ++ mr_id ++ ": " ++ e.msg) "github"))

/-- `GitLabAdapter.get_project` (gitlab.py): a native 404 becomes
`None`. -/
def GitLabAdapter.get_project (w : GLWorld) (s : GLState) (project_id : String) :
    Except PyExc (Option ProjectResource) :=
  s.ensureClient w fun _ =>
    tryGitlab
      (do
        let project ← w.projects_get project_id
        pure (some (GitLabAdapter._convert_to_project_resource project)))
      (fun e =>
        if e.response_code = 404 then .ok none
        else .error (.platformError
          ("Failed to get project " ++ project_id ++ ": " ++ e.msg) "gitlab"))

/-- `GitLabAdapter.get_issue` (gitlab.py): fetch the issue, then try to
attach its non-system notes as comments, swallowing any note-fetch
failure; a native 404 becomes `None`. -/
def GitLabAdapter.get_issue (w : GLWorld) (s : GLState)
    (project_id issue_id : String) : Except PyExc (Option IssueResource) :=
  s.ensureClient w fun _ =>
    tryGitlab
      (do
        let _project ← w.projects_get project_id
        let issue ← w.issues_get project_id issue_id
        tryAll
          (do
            let notes ← w.issue_notes project_id issue_id
            let user_comments := (notes.filter (fun note => !note.system)).map
              (fun note =>
                ([("id", PyVal.str (toString note.nid)),
                  ("author", PyVal.str (note.author.getD "Unknown")),
                  ("body", PyVal.str note.body),
                  ("system", PyVal.bool note.system)] : PyDict))
            let issue_resource := GitLabAdapter._convert_to_issue_resource issue project_id
            pure (some { issue_resource with comments := some user_comments }))
          (fun _ =>
            pure (some (GitLabAdapter._convert_to_issue_resource issue project_id))))
      (fun e =>
        if e.response_code = 404 then .ok none
        else .error (.platformError
          ("Failed to get issue " ++ issue_id ++ ": " ++ e.msg) "gitlab"))

/-- `GitLabAdapter.get_merge_request` (gitlab.py): a native 404 becomes
`None`. -/
def GitLabAdapter.get_merge_request (w : GLWorld) (s : GLState)
    (project_id mr_id : String) : Except PyExc (Option MergeRequestResource) :=
  s.ensureClient w fun _ =>
    tryGitlab
      (do
        let _project ← w.projects_get project_id
        let mr ← w.mr_get project_id mr_id
        pure (some (GitLabAdapter._convert_to_mr_resource mr project_id)))
      (fun e =>
        if e.response_code = 404 then .ok none
        else .error (.platformError
          ("Failed to get merge request " ++ mr_id ++ ": " ++ e.msg) "gitlab"))

/-- `GitLabAdapter.delete_project` (gitlab.py): a native 404 raises
`ResourceNotFoundError`. -/
def GitLabAdapter.delete_project (w : GLWorld) (s : GLState) (project_id : String) :
    Except PyExc Bool :=
  s.ensureClient w fun _ =>
    tryGitlab
      (do
        let _project ← w.projects_get project_id
        let _ ← w.project_delete project_id
        pure true)
      (fun e =>
        if e.response_code = 404 then
          .error (.resourceNotFound "project" project_id "gitlab")
        else .error (.platformError
          ("Failed to delete project " ++ project_id ++ ": " ++ e.msg) "gitlab"))

/-- `GitLabAdapter.get_merge_request_diff` (gitlab.py): per-change
entries with the `"Binary files"` heuristic for binary detection and
`_get_file_status` for the status; the `diff` key is set only when
`include_diff` holds and the change is not binary; GitLab gives no line
counts; `changes_count`, when present on the merge request, overrides
the file count; a native 404 raises `ResourceNotFoundError`. -/
def GitLabAdapter.get_merge_request_diff (w : GLWorld) (s : GLState)
    (project_id mr_id : String) (options : PyDict) : Except PyExc DiffResponse :=
  s.ensureClient w fun _ =>
    tryGitlab
      (do
        let _project ← w.projects_get project_id
        let mr ← w.mr_get project_id mr_id
        let diff_format := options.getD "format" (PyVal.str "json")
        let include_diff := options.getD "include_diff" (PyVal.bool true)
        let changes ← w.mr_changes project_id mr_id
        let fileInfos := changes.map (fun change =>
          let diffStr :=
            match change.getD "diff" (PyVal.str "") with
            | PyVal.str s2 => s2
            | _ => ""
          let binary := strStartsWith diffStr "Binary files"
          let file_info : PyDict :=
            [("path", pyOr (change.getD "new_path" PyVal.noneV)
                           (change.getD "old_path" (PyVal.str ""))),
             ("status", PyVal.str (GitLabAdapter._get_file_status change)),
             ("additions", PyVal.int 0),
             ("deletions", PyVal.int 0),
             ("binary", PyVal.bool binary)]
          if include_diff.truthy && !binary then
            file_info.insert "diff" (change.getD "diff" (PyVal.str ""))
          else
            file_info)
        let files_changed :=
          match mr.changes_count with
          | some n => n
          | none => Int.ofNat changes.length
        pure { mr_id := mr_id, additions := 0, deletions := 0,
               files_changed := files_changed, files := fileInfos,
               diff_format := diff_format, truncated := false })
      (fun e =>
        if e.response_code = 404 then
          .error (.resourceNotFound "merge_request" mr_id "gitlab")
        else .error (.platformError
          ("Failed to get merge request diff " ++ mr_id ++ ": " ++ e.msg) "gitlab"))

/-- `GitLabAdapter.get_merge_request_commits` (gitlab.py): a native 404
raises `ResourceNotFoundError`. -/
def GitLabAdapter.get_merge_request_commits (w : GLWorld) (s : GLState)
    (project_id mr_id : String) : Except PyExc CommitsResponse :=
  s.ensureClient w fun _ =>
    tryGitlab
      (do
        let _project ← w.projects_get project_id
        let _mr ← w.mr_get project_id mr_id
        let commits ← w.mr_commits project_id mr_id
        let commitInfos := commits.map (fun commit =>
          ([("sha", PyVal.str commit.cid),
            ("message", PyVal.str commit.message),
            ("author", PyVal.str commit.author_name),
            ("committer", PyVal.str commit.committer_name)] : PyDict))
        pure { mr_id := mr_id, total_commits := Int.ofNat commits.length,
               commits := commitInfos })
      (fun e =>
        if e.response_code = 404 then
          .error (.resourceNotFound "merge_request" mr_id "gitlab")
        else .error (.platformError
          ("Failed to get merge request commits " ++ mr_id ++ ": " ++ e.msg) "gitlab"))

/-- A GitHub adapter state that already holds a client handle. -/
def ghAuthed : GHState :=
  { token := some "tk", username := some "me", client := some ⟨"tk"⟩,
    authenticated := true }

/-- A GitLab adapter state that already holds a client handle. -/
def glAuthed : GLState :=
  { token := some "tk", username := some "me", client := some ⟨"tk"⟩,
    authenticated := true }

/-- A GitHub world whose repository lookup answers 404. -/
def ghWorld404 : GHWorld :=
  { ghWorldOk with get_repo := fun _ => .error (.githubExc ⟨404, "Not Found", false⟩) }

/-- A GitLab world whose project lookup answers 404. -/
def glWorld404 : GLWorld :=
  { glWorldOk with
      projects_get := fun _ => .error (.gitlabExc ⟨404, "404 Project Not Found", false⟩) }

/-- Counterexample to claim C3: on a native 404,
`get_merge_request_diff` does not return `None` — it raises
`ResourceNotFoundError`, on both adapters (and `get_merge_request_commits`
behaves the same way). -/
theorem get_merge_request_diff_404_raises :
    GitHubAdapter.get_merge_request_diff ghWorld404 ghAuthed "o/r" "1" [] =
      .error (.resourceNotFound "pull_request" "1" "github") ∧
    GitLabAdapter.get_merge_request_diff glWorld404 glAuthed "p" "1" [] =
      .error (.resourceNotFound "merge_request" "1" "gitlab") ∧
    GitHubAdapter.get_merge_request_commits ghWorld404 ghAuthed "o/r" "1" =
      .error (.resourceNotFound "pull_request" "1" "github") ∧
    GitLabAdapter.get_merge_request_commits glWorld404 glAuthed "p" "1" =
      .error (.resourceNotFound "merge_request" "1" "gitlab") :=
  ⟨rfl, rfl, rfl, rfl⟩

/-- Claim C3, amended: on a native 404, `get_project`, `get_issue` and
`get_merge_request` return `None`, while `get_merge_request_diff`,
`get_merge_request_commits` and `delete_project` raise
`ResourceNotFoundError`, on both adapters. -/
theorem not_found_semantics_amended :
    (∀ (w : GHWorld) (s : GHState) (c : GHClient) (pid : String) (e : GithubException),
        s.client = some c → e.status = 404 →
        w.get_repo pid = .error (.githubExc e) →
        GitHubAdapter.get_project w s pid = .ok none ∧
        (∀ iid, GitHubAdapter.get_issue w s pid iid = .ok none) ∧
        (∀ mid, GitHubAdapter.get_merge_request w s pid mid = .ok none) ∧
        (∀ mid options, GitHubAdapter.get_merge_request_diff w s pid mid options =
          .error (.resourceNotFound "pull_request" mid "github")) ∧
        (∀ mid, GitHubAdapter.get_merge_request_commits w s pid mid =
          .error (.resourceNotFound "pull_request" mid "github")) ∧
        GitHubAdapter.delete_project w s pid =
          .error (.resourceNotFound "repository" pid "github")) ∧
    (∀ (w : GLWorld) (s : GLState) (c : GLClient) (pid : String) (e : GitlabError),
        s.client = some c → e.response_code = 404 →
        w.projects_get pid = .error (.gitlabExc e) →
        GitLabAdapter.get_project w s pid = .ok none ∧
        (∀ iid, GitLabAdapter.get_issue w s pid iid = .ok none) ∧
        (∀ mid, GitLabAdapter.get_merge_request w s pid mid = .ok none) ∧
        (∀ mid options, GitLabAdapter.get_merge_request_diff w s pid mid options =
          .error (.resourceNotFound "merge_request" mid "gitlab")) ∧
        (∀ mid, GitLabAdapter.get_merge_request_commits w s pid mid =
          .error (.resourceNotFound "merge_request" mid "gitlab")) ∧
        GitLabAdapter.delete_project w s pid =
          .error (.resourceNotFound "project" pid "gitlab")) := by
  constructor
  · intro w s c pid e hc he hrepo
    refine ⟨?_, fun iid => ?_, fun mid => ?_, fun mid options => ?_, fun mid => ?_, ?_⟩
    · unfold GitHubAdapter.get_project GHState.ensureClient
      rw [hc]
      simp [tryGithub, hrepo, he, Bind.bind, Except.bind]
    · unfold GitHubAdapter.get_issue GHState.ensureClient
      rw [hc]
      simp [tryGithub, hrepo, he, Bind.bind, Except.bind]
    · unfold GitHubAdapter.get_merge_request GHState.ensureClient
      rw [hc]
      simp [tryGithub, hrepo, he, Bind.bind, Except.bind]
    · unfold GitHubAdapter.get_merge_request_diff GHState.ensureClient
      rw [hc]
      simp [tryGithub, hrepo, he, Bind.bind, Except.bind]
    · unfold GitHubAdapter.get_merge_request_commits GHState.ensureClient
      rw [hc]
      simp [tryGithub, hrepo, he, Bind.bind, Except.bind]
    · unfold GitHubAdapter.delete_project GHState.ensureClient
      rw [hc]
      simp [tryGithub, hrepo, he, Bind.bind, Except.bind]
  · intro w s c pid e hc he hproj
    refine ⟨?_, fun iid => ?_, fun mid => ?_, fun mid options => ?_, fun mid => ?_, ?_⟩
    · unfold GitLabAdapter.get_project GLState.ensureClient
      rw [hc]
      simp [tryGitlab, hproj, he, Bind.bind, Except.bind]
    · unfold GitLabAdapter.get_issue GLState.ensureClient
      rw [hc]
      simp [tryGitlab, hproj, he, Bind.bind, Except.bind]
    · unfold GitLabAdapter.get_merge_request GLState.ensureClient
      rw [hc]
      simp [tryGitlab, hproj, he, Bind.bind, Except.bind]
    · unfold GitLabAdapter.get_merge_request_diff GLState.ensureClient
      rw [hc]
      simp [tryGitlab, hproj, he, Bind.bind, Except.bind]
    · unfold GitLabAdapter.get_merge_request_commits GLState.ensureClient
      rw [hc]
      simp [tryGitlab, hproj, he, Bind.bind, Except.bind]
    · unfold GitLabAdapter.delete_project GLState.ensureClient
      rw [hc]
      simp [tryGitlab, hproj, he, Bind.bind, Except.bind]

/-- Witness for the amended C3 in the concrete 404 worlds. -/
theorem not_found_semantics_amended_witness :
    GitHubAdapter.get_project ghWorld404 ghAuthed "o/r" = .ok none ∧
    GitLabAdapter.delete_project glWorld404 glAuthed "p" =
      .error (.resourceNotFound "project" "p" "gitlab") :=
  ⟨(not_found_semantics_amended.1 ghWorld404 ghAuthed ⟨"tk"⟩ "o/r"
      ⟨404, "Not Found", false⟩ rfl rfl rfl).1,
   (not_found_semantics_amended.2 glWorld404 glAuthed ⟨"tk"⟩ "p"
      ⟨404, "404 Project Not Found", false⟩ rfl rfl rfl).2.2.2.2.2⟩

/-! ## Diff-key exclusion (binary files, include_diff) -/

/-- Peeling a successful `Except` bind. -/
theorem exceptBind_ok {ε α β : Type} {x : Except ε α} {f : α → Except ε β} {b : β}
    (h : x >>= f = .ok b) : ∃ a, x = .ok a ∧ f a = .ok b := by
  cases x with
  | error e => simp [Bind.bind, Except.bind] at h
  | ok a => exact ⟨a, rfl, by simpa [Bind.bind, Except.bind] using h⟩

/-- When the handler of a `try/except GithubException` always raises, a
successful overall result must come from the body. -/
theorem tryGithub_ok {B : Except PyExc α} {handler} {a : α}
    (hh : ∀ e, ∃ err, handler e = .error err)
    (h : tryGithub B handler = .ok a) : B = .ok a := by
  cases B with
  | ok b => exact h
  | error e =>
    cases e with
    | githubExc ge =>
      have h' : handler ge = .ok a := h
      obtain ⟨err, he⟩ := hh ge
      rw [he] at h'
      cases h'
    | valueError m => cases h
    | authenticationError m => cases h
    | networkError m => cases h
    | platformError m p => cases h
    | resourceNotFound t i p => cases h
    | gitlabExc ge => cases h
    | otherExc m => cases h

/-- When the handler of a `try/except GitlabError` always raises, a
successful overall result must come from the body. -/
theorem tryGitlab_ok {B : Except PyExc α} {handler} {a : α}
    (hh : ∀ e, ∃ err, handler e = .error err)
    (h : tryGitlab B handler = .ok a) : B = .ok a := by
  cases B with
  | ok b => exact h
  | error e =>
    cases e with
    | gitlabExc ge =>
      have h' : handler ge = .ok a := h
      obtain ⟨err, he⟩ := hh ge
      rw [he] at h'
      cases h'
    | valueError m => cases h
    | authenticationError m => cases h
    | networkError m => cases h
    | platformError m p => cases h
    | resourceNotFound t i p => cases h
    | githubExc ge => cases h
    | otherExc m => cases h

/-- The lazy-authentication prelude around a state-independent body: a
successful result must come from the body. -/
theorem ghEnsureClient_const_ok {s : GHState} {w : GHWorld}
    {X : Except PyExc α} {r : α}
    (h : s.ensureClient w (fun _ => X) = .ok r) : X = .ok r := by
  unfold GHState.ensureClient at h
  cases hsc : s.client with
  | some c => rw [hsc] at h; exact h
  | none =>
    rw [hsc] at h
    cases hau : GitHubAdapter.authenticate w s with
    | error e => rw [hau] at h; cases h
    | ok s' => rw [hau] at h; exact h

/-- The GitLab version of `ghEnsureClient_const_ok`. -/
theorem glEnsureClient_const_ok {s : GLState} {w : GLWorld}
    {X : Except PyExc α} {r : α}
    (h : s.ensureClient w (fun _ => X) = .ok r) : X = .ok r := by
  unfold GLState.ensureClient at h
  cases hsc : s.client with
  | some c => rw [hsc] at h; exact h
  | none =>
    rw [hsc] at h
    cases hau : GitLabAdapter.authenticate w s with
    | error e => rw [hau] at h; cases h
    | ok s' => rw [hau] at h; exact h

/-- A freshly built file-info dict has no `diff` key. -/
theorem diff_base_no_diff_key (p : PyVal) (st : String) (a d : Int) (b : Bool) :
    PyDict.get
      [("path", p), ("status", PyVal.str st), ("additions", PyVal.int a),
       ("deletions", PyVal.int d), ("binary", PyVal.bool b)] "diff" = none := rfl

/-- Inserting the `diff` key leaves the `binary` flag readable. -/
theorem diff_insert_get_binary (p : PyVal) (st : String) (a d : Int) (b : Bool) (v : PyVal) :
    PyDict.get
      (PyDict.insert
        [("path", p), ("status", PyVal.str st), ("additions", PyVal.int a),
         ("deletions", PyVal.int d), ("binary", PyVal.bool b)] "diff" v) "binary" =
      some (PyVal.bool b) := rfl

/-- The conditional diff-key insertion never leaves a `diff` key on an
entry that is binary or whose scenario asked for no diffs. -/
theorem diff_entry_if_spec (C : Bool) (p : PyVal) (st : String) (a d : Int)
    (b : Bool) (v : PyVal) (idt : Bool)
    (hCb : C = true → b = false ∧ idt = true)
    (hcond :
      PyDict.get
        (if C then
          PyDict.insert
            [("path", p), ("status", PyVal.str st), ("additions", PyVal.int a),
             ("deletions", PyVal.int d), ("binary", PyVal.bool b)] "diff" v
        else
          [("path", p), ("status", PyVal.str st), ("additions", PyVal.int a),
           ("deletions", PyVal.int d), ("binary", PyVal.bool b)]) "binary" =
        some (PyVal.bool true) ∨ idt = false) :
    PyDict.get
      (if C then
        PyDict.insert
          [("path", p), ("status", PyVal.str st), ("additions", PyVal.int a),
           ("deletions", PyVal.int d), ("binary", PyVal.bool b)] "diff" v
      else
        [("path", p), ("status", PyVal.str st), ("additions", PyVal.int a),
         ("deletions", PyVal.int d), ("binary", PyVal.bool b)]) "diff" = none := by
  by_cases hC : C = true
  · obtain ⟨hb, hi⟩ := hCb hC
    rw [hC] at hcond
    have hcond' :
        PyDict.get
          (PyDict.insert
            [("path", p), ("status", PyVal.str st), ("additions", PyVal.int a),
             ("deletions", PyVal.int d), ("binary", PyVal.bool b)] "diff" v)
          "binary" = some (PyVal.bool true) ∨ idt = false := hcond
    rw [diff_insert_get_binary] at hcond'
    subst hb
    rcases hcond' with hc | hc
    · simp at hc
    · rw [hi] at hc
      simp at hc
  · have hC' : C = false := by
      cases C with
      | false => rfl
      | true => exact absurd rfl hC
    rw [hC']
    exact diff_base_no_diff_key p st a d b

/-- Claim C8: in the result of `get_merge_request_diff`, any file entry
that is binary, or any entry when the `include_diff` option is false,
carries no `diff` key — on both adapters. -/
theorem diff_entries_exclude_diff_key :
    (∀ (w : GHWorld) (s : GHState) (pid mid : String) (options : PyDict)
        (resp : DiffResponse),
        GitHubAdapter.get_merge_request_diff w s pid mid options = .ok resp →
        ∀ entry ∈ resp.files,
          (entry.get "binary" = some (PyVal.bool true) ∨
            (options.getD "include_diff" (PyVal.bool true)).truthy = false) →
          entry.get "diff" = none) ∧
    (∀ (w : GLWorld) (s : GLState) (pid mid : String) (options : PyDict)
        (resp : DiffResponse),
        GitLabAdapter.get_merge_request_diff w s pid mid options = .ok resp →
        ∀ entry ∈ resp.files,
          (entry.get "binary" = some (PyVal.bool true) ∨
            (options.getD "include_diff" (PyVal.bool true)).truthy = false) →
          entry.get "diff" = none) := by
  constructor
  · intro w s pid mid options resp h entry hmem hcond
    unfold GitHubAdapter.get_merge_request_diff at h
    have hB := ghEnsureClient_const_ok h
    have hB2 := tryGithub_ok (fun e => by by_cases h4 : e.status = 404 <;> simp [h4]) hB
    obtain ⟨repo, hr, hB3⟩ := exceptBind_ok hB2
    obtain ⟨n, hn, hB4⟩ := exceptBind_ok hB3
    obtain ⟨ps, hp, hB5⟩ := exceptBind_ok hB4
    obtain ⟨files, hf, hB6⟩ := exceptBind_ok hB5
    simp only [pure, Except.pure, Except.ok.injEq] at hB6
    subst hB6
    simp only [List.mem_map] at hmem
    obtain ⟨file, hfile, rfl⟩ := hmem
    exact diff_entry_if_spec _ _ _ _ _ _ _ _
      (fun hC => by
        simp only [Bool.and_eq_true, Bool.not_eq_true'] at hC
        exact ⟨hC.1.2, hC.1.1⟩)
      hcond
  · intro w s pid mid options resp h entry hmem hcond
    unfold GitLabAdapter.get_merge_request_diff at h
    have hB := glEnsureClient_const_ok h
    have hB2 := tryGitlab_ok (fun e => by by_cases h4 : e.response_code = 404 <;> simp [h4]) hB
    obtain ⟨project, hr, hB3⟩ := exceptBind_ok hB2
    obtain ⟨mr, hm, hB4⟩ := exceptBind_ok hB3
    obtain ⟨changes, hch, hB5⟩ := exceptBind_ok hB4
    simp only [pure, Except.pure, Except.ok.injEq] at hB5
    subst hB5
    simp only [List.mem_map] at hmem
    obtain ⟨change, hchg, rfl⟩ := hmem
    exact diff_entry_if_spec _ _ _ _ _ _ _ _
      (fun hC => by
        simp only [Bool.and_eq_true, Bool.not_eq_true'] at hC
        exact ⟨hC.2, hC.1⟩)
      hcond

/-- A GitHub world whose pull request contains a single binary file. -/
def ghWorldBin : GHWorld :=
  { ghWorldOk with
      pull_files := fun _ _ =>
        .ok [{ filename := "logo.png", status := "added", additions := 0,
               deletions := 0, patch := none }] }

/-- The diff response `ghWorldBin` produces. -/
def ghDiffRespBin : DiffResponse :=
  { mr_id := "1", additions := 0, deletions := 0, files_changed := 1,
    files := [[("path", PyVal.str "logo.png"), ("status", PyVal.str "added"),
               ("additions", PyVal.int 0), ("deletions", PyVal.int 0),
               ("binary", PyVal.bool true)]],
    diff_format := PyVal.str "json", truncated := false }

/-- Witness for C8: the binary image entry of a concrete pull request
carries no `diff` key. -/
theorem diff_entries_exclude_diff_key_witness :
    PyDict.get
      [("path", PyVal.str "logo.png"), ("status", PyVal.str "added"),
       ("additions", PyVal.int 0), ("deletions", PyVal.int 0),
       ("binary", PyVal.bool true)] "diff" = none :=
  diff_entries_exclude_diff_key.1 ghWorldBin ghAuthed "o/r" "1" [] ghDiffRespBin rfl
    _ (by simp [ghDiffRespBin]) (Or.inl rfl)

/-! ## A trace monad for the create / list operations

Claims C5, C6 and C7 are about which native calls the adapters make and
with which payloads, so these operations are embedded in a monad that
threads the result state (`Except`) together with a trace of the native
calls issued so far. -/

/-- Computations that can raise a Python exception and record the native
calls they make. -/
def PyM (call : Type) (α : Type) : Type :=
  List call → Except PyExc α × List call

instance (call : Type) : Monad (PyM call) where
  pure a := fun t => (.ok a, t)
  bind x f := fun t =>
    match x t with
    | (.ok a, t') => f a t'
    | (.error e, t') => (.error e, t')

/-- Run with an empty trace. -/
def PyM.run (x : PyM call α) : Except PyExc α × List call := x []

/-- `raise e`. -/
def PyM.throw (e : PyExc) : PyM call α := fun t => (.error e, t)

/-- Make a native call: record it and adopt the world's outcome. -/
def PyM.callNative {call : Type} (c : call) (r : Except PyExc α) : PyM call α := fun t =>
  (r, t ++ [c])

/-- Lift a call-free computation. -/
def PyM.lift (r : Except PyExc α) : PyM call α := fun t => (r, t)

/-- Lift a parse result, surfacing its message as a `ValueError`. -/
def PyM.liftValueError (r : Except String β) : PyM call β :=
  match r with
  | .ok v => fun t => (.ok v, t)
  | .error m => PyM.throw (.valueError m)

/-- `try/except GitlabError` in the trace monad. -/
def PyM.tryGitlabM (x : PyM call α) (h : GitlabError → PyM call α) : PyM call α :=
  fun t =>
    match x t with
    | (.error (.gitlabExc e), t') => h e t'
    | r => r

/-- `try/except Exception` in the trace monad. -/
def PyM.tryAllM (x : PyM call α) (h : PyExc → PyM call α) : PyM call α :=
  fun t =>
    match x t with
    | (.error e, t') => h e t'
    | r => r

/-- The `try/except ValueError/except GithubException` pair wrapped
around GitHub's `create_merge_request`. -/
def PyM.tryCreatePR (x : PyM call α) (hv : String → PyM call α)
    (hg : GithubException → PyM call α) : PyM call α :=
  fun t =>
    match x t with
    | (.error (.valueError m), t') => hv m t'
    | (.error (.githubExc e), t') => hg e t'
    | r => r

/-- Native GitHub calls traced by `create_merge_request`. -/
inductive GHCall where
  | getRepoC (project_id : String)
  | createPullC (project_id : String) (payload : PyDict)
  | branchesListC (project_id : String) (search : String)
deriving DecidableEq, Repr

/-- Native GitLab calls traced by `create_merge_request` and
`list_all_issues`. -/
inductive GLCall where
  | projectsGetC (project_id : String)
  | branchesListC (project_id : String) (search : String)
  | usersListC (username : String)
  | mrCreateC (project_id : String) (payload : PyDict)
  | issuesListC (filters : PyDict)
deriving DecidableEq, Repr

/-- `self.client.get_repo(...)`, traced. -/
def GHWorld.get_repoM (w : GHWorld) (pid : String) : PyM GHCall GHRepo :=
  PyM.callNative (.getRepoC pid) (w.get_repo pid)

/-- `target_repo.create_pull(**pr_kwargs)`, traced. -/
def GHWorld.create_pullM (w : GHWorld) (pid : String) (payload : PyDict) :
    PyM GHCall GHPull :=
  PyM.callNative (.createPullC pid payload) (w.create_pull pid payload)

/-- `self.client.projects.get(...)`, traced. -/
def GLWorld.projects_getM (w : GLWorld) (pid : String) : PyM GLCall GLProject :=
  PyM.callNative (.projectsGetC pid) (w.projects_get pid)

/-- `project.branches.list(search=...)`, traced; yields branch names. -/
def GLWorld.branches_listM (w : GLWorld) (pid search : String) :
    PyM GLCall (List String) :=
  PyM.callNative (.branchesListC pid search) (w.branches_list pid search)

/-- `self.client.users.list(username=...)`, traced. -/
def GLWorld.users_listM (w : GLWorld) (username : String) :
    PyM GLCall (List GLUser) :=
  PyM.callNative (.usersListC username) (w.users_list username)

/-- `project.mergerequests.create(mr_data)`, traced. -/
def GLWorld.mr_createM (w : GLWorld) (pid : String) (payload : PyDict) :
    PyM GLCall GLMergeRequest :=
  PyM.callNative (.mrCreateC pid payload) (w.mr_create pid payload)

/-- `self.client.issues.list(**gitlab_filters)`, traced. -/
def GLWorld.issues_listM (w : GLWorld) (filters : PyDict) :
    PyM GLCall (List GLIssue) :=
  PyM.callNative (.issuesListC filters) (w.issues_list filters)

/-- The lazy-authentication prelude in the trace monad (GitHub). -/
def PyM.ensureClientGH (w : GHWorld) (s : GHState)
    (k : GHState → PyM GHCall α) : PyM GHCall α :=
  match s.client with
  | some _ => k s
  | none =>
      match GitHubAdapter.authenticate w s with
      | .error e => PyM.throw e
      | .ok s' => k s'

/-- The lazy-authentication prelude in the trace monad (GitLab). -/
def PyM.ensureClientGL (w : GLWorld) (s : GLState)
    (k : GLState → PyM GLCall α) : PyM GLCall α :=
  match s.client with
  | some _ => k s
  | none =>
      match GitLabAdapter.authenticate w s with
      | .error e => PyM.throw e
      | .ok s' => k s'

/-- `branch.split("/")[0]`. -/
def takeUntilSlash : List Char → List Char
  | [] => []
  | c :: cs => if c = '/' then [] else c :: takeUntilSlash cs

/-- First `/`-segment of a string. -/
def takeBeforeSlash (s : String) : String := ⟨takeUntilSlash s.data⟩

/-- The string python-gitlab sends for an id-like argument. -/
def pyIdStr : PyVal → String
  | .str s => s
  | .int n => toString n
  | .bool b => if b then "True" else "False"
  | .noneV => "None"
  | .strList _ => ""

/-- Python `int(v)` on an arbitrary value. -/
def pyIntOfVal : PyVal → Except PyExc Int
  | .int n => .ok n
  | .str s => pyIntOf s
  | .bool b => .ok (if b then 1 else 0)
  | .noneV => .error (.otherExc "int() argument must not be None")
  | .strList _ => .error (.otherExc "int() argument must not be a list")

/-- Python `v == u` between a value and an optional string. -/
def pyEqOptStr (v : PyVal) (u : Option String) : Bool :=
  match v, u with
  | .str a, some b => a == b
  | .noneV, none => true
  | _, _ => false

/-! ## Merge request creation -/

/-- `GitHubAdapter.create_merge_request` (github.py): parse both branch
references, qualify `head` as `owner:branch` only for a cross-repository
source, aim `base` (and possibly the target repository) per the target
reference, assemble `pr_kwargs` and call `create_pull` — with no branch
existence check of any kind; `ValueError` from parsing and
`GithubException` from the native calls become `PlatformError`. -/
def GitHubAdapter.create_merge_request (w : GHWorld) (s : GHState)
    (project_id source_branch target_branch title : String) (kwargs : PyDict) :
    PyM GHCall MergeRequestResource :=
  PyM.ensureClientGH w s fun _ =>
    PyM.tryCreatePR
      (do
        let source_ref ← PyM.liftValueError
          (GitHubAdapter.parse_branch_reference source_branch)
        let target_ref ← PyM.liftValueError
          (GitHubAdapter.parse_branch_reference target_branch)
        let source_head :=
          if source_ref.is_cross_repo then
            (source_ref.owner.getD "") ++ ":" ++ source_ref.branch
          else
            source_ref.branch
        let (target_repo_id, target_base) :=
          if target_ref.is_cross_repo then
            ((target_ref.owner.getD "") ++ "/" ++ takeBeforeSlash target_ref.branch,
             target_ref.branch)
          else
            (project_id, target_ref.branch)
        let _target_repo ← w.get_repoM target_repo_id
        let pr_kwargs : PyDict :=
          [("title", PyVal.str title), ("head", PyVal.str source_head),
           ("base", PyVal.str target_base)]
        let (pr_kwargs, kwargs) :=
          if kwargs.contains "description" then
            (pr_kwargs.insert "body" (kwargs.getD "description" PyVal.noneV),
             kwargs.erase "description")
          else (pr_kwargs, kwargs)
        let (pr_kwargs, kwargs) :=
          if kwargs.contains "draft" then
            (pr_kwargs.insert "draft" (kwargs.getD "draft" PyVal.noneV),
             kwargs.erase "draft")
          else (pr_kwargs, kwargs)
        let (pr_kwargs, kwargs) :=
          if kwargs.contains "assignee_username" then
            (pr_kwargs.insert "assignee" (kwargs.getD "assignee_username" PyVal.noneV),
             kwargs.erase "assignee_username")
          else (pr_kwargs, kwargs)
        let pr_kwargs := pr_kwargs.update kwargs
        let pr ← w.create_pullM target_repo_id pr_kwargs
        pure (GitHubAdapter._convert_to_mr_resource pr target_repo_id))
      (fun m => PyM.throw (.platformError ("Invalid branch reference: " ++ m) "github"))
      (fun e => PyM.throw
        (.platformError ("Failed to create pull request: " ++ e.msg) "github"))

/-- `GitLabAdapter.create_merge_request` (gitlab.py): parse both branch
references; with a truthy `target_project_id` kwarg run the
cross-project path (two projects, each branch existence check in its own
advisory `try/except GitlabError`), else the same-project path (both
checks in one advisory `try`); a branch absent from a successful listing
raises `PlatformError` naming the branch and project before any create
call; then assemble `mr_data` (unqualified branch names, the integer
`target_project_id` when cross-project, best-effort assignee
resolution, remaining kwargs) and call `mergerequests.create`. -/
def GitLabAdapter.create_merge_request (w : GLWorld) (s : GLState)
    (project_id source_branch target_branch title : String) (kwargs : PyDict) :
    PyM GLCall MergeRequestResource :=
  PyM.ensureClientGL w s fun _ =>
    PyM.tryGitlabM
      (do
        let source_ref ← PyM.liftValueError
          (GitLabAdapter.parse_branch_reference source_branch)
        let target_ref ← PyM.liftValueError
          (GitLabAdapter.parse_branch_reference target_branch)
        let source_project_id := project_id
        let target_project_id := kwargs.getD "target_project_id" PyVal.noneV
        let project ← (show PyM GLCall GLProject from
          if target_project_id.truthy then do
            let source_project ← w.projects_getM source_project_id
            let target_project ← w.projects_getM (pyIdStr target_project_id)
            PyM.tryGitlabM
              (do
                let source_branches ← w.branches_listM source_project.pid source_ref.branch
                if source_branches.any (fun b => b == source_ref.branch) then pure ()
                else PyM.throw (.platformError
                  ("Source branch " ++ source_ref.branch ++ " not found in project " ++
                   source_project_id ++
                   ". Make sure the branch is pushed to the remote repository.")
                  "gitlab"))
              (fun _ => pure ())
            PyM.tryGitlabM
              (do
                let target_branches ← w.branches_listM target_project.pid target_ref.branch
                if target_branches.any (fun b => b == target_ref.branch) then pure ()
                else PyM.throw (.platformError
                  ("Target branch " ++ target_ref.branch ++ " not found in project " ++
                   pyIdStr target_project_id)
                  "gitlab"))
              (fun _ => pure ())
            pure source_project
          else do
            let project ← w.projects_getM source_project_id
            PyM.tryGitlabM
              (do
                let source_branches ← w.branches_listM project.pid source_ref.branch
                if source_branches.any (fun b => b == source_ref.branch) then pure ()
                else PyM.throw (.platformError
                  ("Source branch " ++ source_ref.branch ++ " not found in project " ++
                   source_project_id ++
                   ". Make sure the branch is pushed to the remote repository.")
                  "gitlab")
                let target_branches ← w.branches_listM project.pid target_ref.branch
                if target_branches.any (fun b => b == target_ref.branch) then pure ()
                else PyM.throw (.platformError
                  ("Target branch " ++ target_ref.branch ++ " not found in project " ++
                   source_project_id)
                  "gitlab"))
              (fun _ => pure ())
            pure project)
        let mr_data : PyDict :=
          [("source_branch", PyVal.str source_ref.branch),
           ("target_branch", PyVal.str target_ref.branch),
           ("title", PyVal.str title)]
        let mr_data ← (show PyM GLCall PyDict from
          if target_project_id.truthy then do
            let n ← PyM.lift (pyIntOfVal target_project_id)
            pure (mr_data.insert "target_project_id" (PyVal.int n))
          else pure mr_data)
        let (mr_data, kwargs) ← (show PyM GLCall (PyDict × PyDict) from
          if kwargs.contains "assignee_username" then do
            let assignee_username := kwargs.getD "assignee_username" PyVal.noneV
            let kwargs := kwargs.erase "assignee_username"
            PyM.tryAllM
              (do
                let users ← w.users_listM (pyIdStr assignee_username)
                match users with
                | u :: _ => pure (mr_data.insert "assignee_id" (PyVal.int u.uid), kwargs)
                | [] => pure (mr_data, kwargs))
              (fun _ => pure (mr_data, kwargs))
          else pure (mr_data, kwargs))
        let (mr_data, kwargs) :=
          if kwargs.contains "description" then
            (mr_data.insert "description" (kwargs.getD "description" PyVal.noneV),
             kwargs.erase "description")
          else (mr_data, kwargs)
        let mr_data := mr_data.update kwargs
        let mr ← w.mr_createM project.pid mr_data
        pure (GitLabAdapter._convert_to_mr_resource mr project_id))
      (fun e => PyM.throw
        (.platformError ("Failed to create merge request: " ++ e.msg) "gitlab"))

/-! ## GitLab global issue listing -/

/-- Outcome of the assignee-filter handling inside `list_all_issues`:
either proceed with given native filters or return an empty list early
(unknown assignee username). -/
inductive AssigneeStep where
  | proceed (gitlab_filters : PyDict)
  | returnEmpty
deriving DecidableEq, Repr

/-- `GitLabAdapter.list_all_issues` (gitlab.py): when the assignee filter
equals the configured username, query with `scope=assigned_to_me` and no
user lookup; for another username, resolve it to a numeric `assignee_id`
through the Users API, returning `[]` when no user matches and falling
back to the username-based filters when the lookup raises; after the
global query, post-filter client-side by assignee username exactly when
an assignee was requested, is not the configured user, and no
`assignee_id` made it into the native filters. -/
def GitLabAdapter.list_all_issues (w : GLWorld) (s : GLState) (filters : PyDict) :
    PyM GLCall (List IssueResource) :=
  PyM.ensureClientGL w s fun self =>
    PyM.tryGitlabM
      (do
        let gitlab_filters := GitLabAdapter._normalize_issue_filters filters
        let assignee_filter := filters.getD "assignee" PyVal.noneV
        let step ← (show PyM GLCall AssigneeStep from
          if filters.contains "assignee" then
            if pyEqOptStr assignee_filter self.username then
              let gitlab_filters : PyDict :=
                [("scope", PyVal.str "assigned_to_me"),
                 ("state", gitlab_filters.getD "state" (PyVal.str "opened")),
                 ("all", PyVal.bool false),
                 ("per_page", PyVal.int 100)]
              let gitlab_filters :=
                if gitlab_filters.contains "labels" then
                  gitlab_filters.insert "labels" (gitlab_filters.getD "labels" PyVal.noneV)
                else gitlab_filters
              pure (AssigneeStep.proceed gitlab_filters)
            else
              PyM.tryAllM
                (do
                  let users ← w.users_listM (pyIdStr assignee_filter)
                  match users with
                  | u :: _ =>
                      pure (AssigneeStep.proceed
                        ((gitlab_filters.insert "assignee_id" (PyVal.int u.uid)).erase
                          "assignee_username"))
                  | [] => pure AssigneeStep.returnEmpty)
                (fun _ => pure (AssigneeStep.proceed gitlab_filters))
          else pure (AssigneeStep.proceed gitlab_filters))
        match step with
        | .returnEmpty => pure []
        | .proceed gitlab_filters => do
            let issues ← w.issues_listM gitlab_filters
            let issue_resources := issues.map (fun issue =>
              GitLabAdapter._convert_to_issue_resource issue (toString issue.project_id))
            let issue_resources :=
              if assignee_filter.truthy &&
                 !(pyEqOptStr assignee_filter self.username) &&
                 !(gitlab_filters.contains "assignee_id") then
                issue_resources.filter (fun issue => pyEqOptStr assignee_filter issue.assignee)
              else issue_resources
            pure issue_resources)
      (fun e => PyM.throw
        (.platformError ("Failed to list all issues: " ++ e.msg) "gitlab"))

/-! ## Claims C5, C6, C7 -/

/-- Unfolding lemma for `PyM` bind. -/
theorem PyM.bind_def {call α β : Type} (x : PyM call α) (f : α → PyM call β) (t : List call) :
    (x >>= f) t =
      match x t with
      | (.ok a, t') => f a t'
      | (.error e, t') => (.error e, t') := rfl

/-- Unfolding lemma for `PyM` pure. -/
theorem PyM.pure_def {call α : Type} (a : α) (t : List call) :
    (pure a : PyM call α) t = (.ok a, t) := rfl

/-- A GitLab world in which every branch search finds its branch. -/
def glCrossWorld : GLWorld :=
  { glWorldOk with branches_list := fun _ search => .ok [search] }

/-- Claim C5: with source `"forkuser:feature"` and target `"main"`, the
GitHub adapter issues a create call whose payload has
`head = "forkuser:feature"` and `base = "main"` (a bare source such as
`"feature"` stays unqualified); the GitLab adapter with a
`target_project_id` kwarg issues a create payload with that id and the
unqualified branch names. -/
theorem create_merge_request_cross_repo_payload :
    (PyM.run (GitHubAdapter.create_merge_request ghWorldOk ghAuthed
        "owner/repo" "forkuser:feature" "main" "T" [])).2 =
      [GHCall.getRepoC "owner/repo",
       GHCall.createPullC "owner/repo"
         [("title", PyVal.str "T"), ("head", PyVal.str "forkuser:feature"),
          ("base", PyVal.str "main")]] ∧
    (PyM.run (GitHubAdapter.create_merge_request ghWorldOk ghAuthed
        "owner/repo" "feature" "main" "T" [])).2 =
      [GHCall.getRepoC "owner/repo",
       GHCall.createPullC "owner/repo"
         [("title", PyVal.str "T"), ("head", PyVal.str "feature"),
          ("base", PyVal.str "main")]] ∧
    (PyM.run (GitLabAdapter.create_merge_request glCrossWorld glAuthed
        "proj" "forkuser:feature" "main" "T" [("target_project_id", PyVal.int 99)])).2 =
      [GLCall.projectsGetC "proj", GLCall.projectsGetC "99",
       GLCall.branchesListC "proj" "feature", GLCall.branchesListC "99" "main",
       GLCall.mrCreateC "proj"
         [("source_branch", PyVal.str "feature"), ("target_branch", PyVal.str "main"),
          ("title", PyVal.str "T"), ("target_project_id", PyVal.int 99)]] :=
  ⟨rfl, rfl, rfl⟩

/-- A GitHub world in which no repository has any branch. -/
def ghNoBranchWorld : GHWorld :=
  { ghWorldOk with branches_list := fun _ _ => .ok [] }

/-- The pull request `ghWorldOk.create_pull` returns. -/
def ghCreatedPull : GHPull :=
  { number := 1, state := "open", merged := false, title := "t",
    body := none, head_ref := "h", base_ref := "b", html_url := "u",
    draft := false }

/-- Counterexample to claim C6: the GitHub adapter performs no branch
existence check at all — in a world whose branch listings are all empty
(so both referenced branches are absent from any listing), creation
still succeeds, issuing only `get_repo` and `create_pull` and never a
branch-list query, instead of failing fast with `PlatformError`. -/
theorem create_merge_request_github_skips_branch_check :
    PyM.run (GitHubAdapter.create_merge_request ghNoBranchWorld ghAuthed
        "owner/repo" "forkuser:feature" "main" "T" []) =
      (.ok (GitHubAdapter._convert_to_mr_resource ghCreatedPull "owner/repo"),
       [GHCall.getRepoC "owner/repo",
        GHCall.createPullC "owner/repo"
          [("title", PyVal.str "T"), ("head", PyVal.str "forkuser:feature"),
           ("base", PyVal.str "main")]]) := rfl

/-- A GitLab world whose branch listings raise a permission error. -/
def glBranchDeniedWorld : GLWorld :=
  { glWorldOk with
      branches_list := fun _ _ =>
        .error (.gitlabExc ⟨403, "insufficient permission", false⟩) }

/-- The merge request `glWorldOk.mr_create` returns. -/
def glCreatedMR : GLMergeRequest :=
  { iid := 1, state := "opened", title := "t", web_url := "u",
    source_branch := "s", target_branch := "t", description := none,
    draft := false, changes_count := none }

/-- Claim C6, amended: only the GitLab adapter runs best-effort branch
existence checks before the native create call — a branch absent from a
successful listing aborts with a `PlatformError` naming the branch and
project before any create call, while a listing that itself raises is
swallowed and creation proceeds; the GitHub adapter issues the native
create call without consulting branch listings at all. -/
theorem create_merge_request_branch_check_amended :
    (∀ bl : String → String → Except PyExc (List String),
        PyM.run (GitHubAdapter.create_merge_request
            { ghWorldOk with branches_list := bl } ghAuthed
            "owner/repo" "forkuser:feature" "main" "T" []) =
          (.ok (GitHubAdapter._convert_to_mr_resource ghCreatedPull "owner/repo"),
           [GHCall.getRepoC "owner/repo",
            GHCall.createPullC "owner/repo"
              [("title", PyVal.str "T"), ("head", PyVal.str "forkuser:feature"),
               ("base", PyVal.str "main")]])) ∧
    (∀ bs : List String, "feature" ∉ bs →
        PyM.run (GitLabAdapter.create_merge_request
            { glWorldOk with branches_list := fun _ _ => .ok bs } glAuthed
            "proj" "feature" "main" "T" []) =
          (.error (.platformError
            ("Source branch feature not found in project proj. " ++
             "Make sure the branch is pushed to the remote repository.") "gitlab"),
           [GLCall.projectsGetC "proj", GLCall.branchesListC "proj" "feature"])) ∧
    PyM.run (GitLabAdapter.create_merge_request glBranchDeniedWorld glAuthed
        "proj" "feature" "main" "T" []) =
      (.ok (GitLabAdapter._convert_to_mr_resource glCreatedMR "proj"),
       [GLCall.projectsGetC "proj", GLCall.branchesListC "proj" "feature",
        GLCall.mrCreateC "proj"
          [("source_branch", PyVal.str "feature"), ("target_branch", PyVal.str "main"),
           ("title", PyVal.str "T")]]) := by
  refine ⟨fun bl => rfl, ?_, rfl⟩
  intro bs hmem
  have hparse1 : GitLabAdapter.parse_branch_reference "feature" =
    .ok { project := none, branch := "feature", is_cross_project := false } := rfl
  have hparse2 : GitLabAdapter.parse_branch_reference "main" =
    .ok { project := none, branch := "main", is_cross_project := false } := rfl
  simp only [PyM.run, GitLabAdapter.create_merge_request, PyM.ensureClientGL, glAuthed]
  simp only [PyM.tryGitlabM, PyM.bind_def, PyM.pure_def, PyM.liftValueError, hparse1, hparse2,
    PyM.throw, PyM.lift, GLWorld.projects_getM, GLWorld.branches_listM, GLWorld.mr_createM,
    GLWorld.users_listM, PyM.callNative, glWorldOk, PyDict.getD, PyDict.get, PyDict.contains,
    PyVal.truthy]
  simp [PyM.bind_def, PyM.pure_def, PyM.callNative, PyM.tryGitlabM, PyM.throw, hmem]

/-- Witness for the amended C6 at the concrete listing `["other"]`. -/
theorem create_merge_request_branch_check_amended_witness :
    PyM.run (GitLabAdapter.create_merge_request
        { glWorldOk with branches_list := fun _ _ => .ok ["other"] } glAuthed
        "proj" "feature" "main" "T" []) =
      (.error (.platformError
        ("Source branch feature not found in project proj. " ++
         "Make sure the branch is pushed to the remote repository.") "gitlab"),
       [GLCall.projectsGetC "proj", GLCall.branchesListC "proj" "feature"]) :=
  create_merge_request_branch_check_amended.2.1 ["other"] (by decide)

/-- A GitLab adapter state whose configured username is `alice`. -/
def glAuthedAlice : GLState :=
  { token := some "tk", username := some "alice", client := some ⟨"tk"⟩,
    authenticated := true }

/-- An issue assigned to `bob` in project 7. -/
def glIssueBob : GLIssue :=
  { iid := 5, project_id := 7, state := "opened", title := "b", web_url := "u",
    assignee := some "bob", labels := [] }

/-- An issue assigned to `carol` in project 8. -/
def glIssueCarol : GLIssue :=
  { iid := 6, project_id := 8, state := "opened", title := "c", web_url := "u",
    assignee := some "carol", labels := [] }

/-- A world for the self-assignee scenario: the Users-API outcome is an
arbitrary `ur`, and the global issue listing returns `glIssueBob`. -/
def glSelfWorld (ur : Except PyExc (List GLUser)) : GLWorld :=
  { glWorldOk with
      users_list := fun _ => ur
      issues_list := fun _ => .ok [glIssueBob] }

/-- A world whose Users-API lookup finds nobody. -/
def glNoUserWorld : GLWorld :=
  { glWorldOk with users_list := fun _ => .ok [] }

/-- A world whose Users-API lookup raises, while the global listing
returns issues of `bob` and `carol`. -/
def glLookupFailWorld : GLWorld :=
  { glWorldOk with
      users_list := fun _ => .error (.otherExc "boom")
      issues_list := fun _ => .ok [glIssueBob, glIssueCarol] }

/-- A world whose Users-API lookup resolves `bob` to user id 42. -/
def glLookupOkWorld : GLWorld :=
  { glWorldOk with
      users_list := fun _ => .ok [⟨42, "bob"⟩]
      issues_list := fun _ => .ok [glIssueBob] }

/-- Claim C7: `list_all_issues` with an assignee filter equal to the
configured username queries with `scope=assigned_to_me` and never
consults the Users API (the result is the same for every lookup
outcome `ur`, and the trace holds no users-list call); with a different
username it looks the user up, returning `[]` when no user matches,
resolving to a numeric `assignee_id` when one does, and degrading to
client-side post-filtering by assignee username when the lookup
raises. -/
theorem list_all_issues_assignee_spec :
    (∀ ur : Except PyExc (List GLUser),
        PyM.run (GitLabAdapter.list_all_issues (glSelfWorld ur) glAuthedAlice
            [("assignee", PyVal.str "alice")]) =
          (.ok [GitLabAdapter._convert_to_issue_resource glIssueBob "7"],
           [GLCall.issuesListC
              [("scope", PyVal.str "assigned_to_me"), ("state", PyVal.str "opened"),
               ("all", PyVal.bool false), ("per_page", PyVal.int 100)]])) ∧
    PyM.run (GitLabAdapter.list_all_issues glNoUserWorld glAuthedAlice
        [("assignee", PyVal.str "bob")]) =
      (.ok [], [GLCall.usersListC "bob"]) ∧
    PyM.run (GitLabAdapter.list_all_issues glLookupOkWorld glAuthedAlice
        [("assignee", PyVal.str "bob")]) =
      (.ok [GitLabAdapter._convert_to_issue_resource glIssueBob "7"],
       [GLCall.usersListC "bob",
        GLCall.issuesListC [("assignee_id", PyVal.int 42)]]) ∧
    PyM.run (GitLabAdapter.list_all_issues glLookupFailWorld glAuthedAlice
        [("assignee", PyVal.str "bob")]) =
      (.ok [GitLabAdapter._convert_to_issue_resource glIssueBob "7"],
       [GLCall.usersListC "bob",
        GLCall.issuesListC [("assignee_username", PyVal.str "bob")]]) :=
  ⟨fun _ => rfl, rfl, rfl, rfl⟩
